import Mathlib

/-!
Shallow embedding of `src/vispy/visuals/image.py` (ScalableTexture2D and
ImageVisual).  Sample values and color limits are modelled as exact
rationals (`ℚ`); the float32 narrowing steps of the code (`astype`,
`np.float32`) are the identity on this exact model.  Dynamic Python
errors (ValueError / TypeError / AttributeError) are modelled as
`Except`-style error results; numpy warnings are collected in lists.
-/

deriving instance DecidableEq for Except

namespace VispyImage

/-- Python runtime values flowing through the clim computations: exact
numbers, the IEEE specials produced by dividing by zero, and strings
(indexing the string literal for auto clim yields characters). -/
inductive PyV where
  | q (x : ℚ)
  | nan
  | inf
  | ninf
  | sv (s : String)
  deriving DecidableEq

/-- Subtraction of a number from a Python value, as in `val - dmin`:
a TypeError for strings, IEEE-style propagation for specials. -/
def pySub (v : PyV) (r : ℚ) : Except String PyV :=
  match v with
  | .q x => .ok (.q (x - r))
  | .nan => .ok .nan
  | .inf => .ok .inf
  | .ninf => .ok .ninf
  | .sv _ => .error "TypeError: unsupported operand types for subtraction"

/-- Division of a Python value by a number, as in `val / (dmax - dmin)`:
division by zero follows IEEE float semantics (0/0 is NaN, nonzero/0 is
a signed infinity); strings are a TypeError. -/
def pyDivC (v : PyV) (d : ℚ) : Except String PyV :=
  match v with
  | .q x =>
      if d = 0 then
        if x = 0 then .ok .nan
        else if 0 < x then .ok .inf
        else .ok .ninf
      else .ok (.q (x / d))
  | .nan => .ok .nan
  | .inf => if d < 0 then .ok .ninf else .ok .inf
  | .ninf => if d < 0 then .ok .inf else .ok .ninf
  | .sv _ => .error "TypeError: unsupported operand types for division"

/-- Numpy element types appearing in the module: the eight keys of
`ScalableTexture2D._texture_dtype_format` plus some unsupported types. -/
inductive DType where
  | f32 | f64 | u8 | u16 | u32 | i8 | i16 | i32
  | f16 | i64 | u64
  deriving DecidableEq

/-- Byte width of each element type (`dtype.itemsize`). -/
def itemsize : DType → ℕ
  | .f32 => 4 | .f64 => 8 | .u8 => 1 | .u16 => 2 | .u32 => 4
  | .i8 => 1 | .i16 => 2 | .i32 => 4 | .f16 => 2 | .i64 => 8 | .u64 => 8

/-- Whether `np.issubdtype(dtype, np.floating)` holds. -/
def isFloating : DType → Bool
  | .f32 => true | .f64 => true | .f16 => true | _ => false

/-- Warning-class diagnostics emitted by the module. -/
inductive Warn where
  /-- the `F64_PRECISION_WARNING` constant (precision lost downcasting
  to 32-bit float). -/
  | f64Precision
  /-- the warning at image.py:179: texture_format was auto with no data,
  falling back to CPU scaling. -/
  | autoNoData
  deriving DecidableEq

/-- Embedding of `_should_cast_to_f32` (image.py:23): returns the result
together with the warnings it emits. -/
def should_cast_to_f32 (d : DType) : Bool × List Warn :=
  let is_floating := isFloating d
  let gt_float32 := decide (4 < itemsize d)
  if is_floating && gt_float32 then (true, [.f64Precision]) else (false, [])

/-- The dtype → internalformat table `_texture_dtype_format`
(image.py:38): the placeholder tag for a single channel, `none` for
types absent from the table. -/
def texture_dtype_format : DType → Option String
  | .f32 => some "r32f"
  | .f64 => some "r32f"
  | .u8 => some "r8"
  | .u16 => some "r16"
  | .u32 => some "r32"
  | .i8 => some "r8"
  | .i16 => some "r16"
  | .i32 => some "r32"
  | _ => none

/-- Integer range of a dtype as returned by `np.iinfo`; `none` for the
floating types, on which `np.iinfo` raises. -/
def iinfoQ : DType → Option (ℚ × ℚ)
  | .u8 => some (0, 255)
  | .u16 => some (0, 65535)
  | .u32 => some (0, 4294967295)
  | .u64 => some (0, 18446744073709551615)
  | .i8 => some (-128, 127)
  | .i16 => some (-32768, 32767)
  | .i32 => some (-2147483648, 2147483647)
  | .i64 => some (-9223372036854775808, 9223372036854775807)
  | _ => none

/-- Replace every occurrence of the character `c` in a character list by
`rep`, modelling Python `str.replace` for the one-character pattern used
at image.py:194. -/
def replaceChar (c : Char) (rep : List Char) : List Char → List Char
  | [] => []
  | x :: xs => if x = c then rep ++ replaceChar c rep xs else x :: replaceChar c rep xs

/-- Python `'rgba'[:num_channels]`. -/
def rgbaTake (n : ℕ) : List Char := "rgba".toList.take n

/-- Channel substitution `texture_format.replace('r', 'rgba'[:num_channels])`
(image.py:194). -/
def substituteChannels (tag : String) (n : ℕ) : String :=
  ⟨replaceChar 'r' (rgbaTake n) tag.toList⟩

/-- A raster array: element type, whether it has a third (band) axis,
the size of that axis, and (for single-band data) the sample matrix. -/
structure Img where
  dtype : DType
  ndim3 : Bool
  bands : ℕ
  mat : List (List ℚ)
  deriving DecidableEq

/-- Embedding of `ScalableTexture2D._data_num_channels` (image.py:160). -/
def data_num_channels (data : Option Img) : ℕ :=
  match data with
  | some i => if i.ndim3 then i.bands else 1
  | none => 4

/-- The condition `data.ndim == 2 or data.shape[2] == 1` used in
`set_data` (image.py:221) and `_build_color_transform` (image.py:347). -/
def isSingleBand (i : Img) : Bool :=
  !i.ndim3 || i.bands == 1

/-- The stored `_clim` slot: `None` at construction, the string auto, or
a resolved numeric pair. -/
inductive ClimSt where
  | noneV
  | autoV
  | pairV (lo hi : ℚ)
  deriving DecidableEq

/-- State of a `ScalableTexture2D`. -/
structure Tex where
  autoTextureFormat : Bool
  clim : ClimSt
  dataDtype : Option DType
  dataLimits : Option (ℚ × ℚ)
  scaleTextureGpu : Bool
  internalformat : Option String
  deriving DecidableEq

/-- The `internalformat`/`texture_format` argument: `None`, the string
auto, a dtype-like object, or an explicit internalformat string. -/
inductive FmtReq where
  | noneReq
  | autoReq
  | dtypeReq (d : DType)
  | strReq (s : String)
  deriving DecidableEq

/-- Embedding of `_handle_auto_texture_format` (image.py:176): takes the
requested format and the dtype of the array argument (or `none` when
that argument is `None`); returns the updated request, the
`_auto_texture_format` flag, and emitted warnings. -/
def handle_auto_texture_format (req : FmtReq) (arrDtype : Option DType) :
    FmtReq × Bool × List Warn :=
  match req with
  | .autoReq =>
      match arrDtype with
      | none => (.noneReq, false, [.autoNoData])
      | some d => (.dtypeReq d, true, [])
  | r => (r, false, [])

/-- Embedding of `_get_gl_tex_format` (image.py:187).  A dtype request
outside the table raises a ValueError; a `None` request reaching this
point raises (`None.replace` is an AttributeError). -/
def get_gl_tex_format (req : FmtReq) (numChannels : ℕ) :
    Except String (String × List Warn) :=
  match req with
  | .dtypeReq d =>
      match texture_dtype_format d with
      | none => .error "ValueError: cannot determine internal texture format"
      | some tag =>
          let w := (should_cast_to_f32 d).2
          .ok (substituteChannels tag numChannels, w)
  | .strReq s => .ok (substituteChannels s numChannels, [])
  | .autoReq => .ok (substituteChannels "auto" numChannels, [])
  | .noneReq => .error "AttributeError: NoneType has no attribute replace"

/-- Embedding of `_get_texture_format_for_data` (image.py:197). -/
def get_texture_format_for_data (data : Option Img) (req : FmtReq) :
    Except String (Option String × Bool × List Warn) :=
  match req with
  | .noneReq => .ok (none, false, [])
  | r =>
      let numChannels := data_num_channels data
      let (r2, autoFlag, w1) := handle_auto_texture_format r (data.map (·.dtype))
      match get_gl_tex_format r2 numChannels with
      | .error e => .error e
      | .ok (fmt, w2) => .ok (some fmt, autoFlag, w1 ++ w2)

/-- Embedding of `_create_rep_array` (image.py:167): a `(1, 1, n)` array
of zeros whose dtype is numpy's default float64. -/
def create_rep_array (data : Option Img) : Img :=
  { dtype := .f64, ndim3 := true, bands := data_num_channels data, mat := [[0]] }

/-- Embedding of `ScalableTexture2D.__init__` (image.py:49): records the
incoming dtype, replaces `data` by the representative array, resolves
the internalformat from that representative array (this is the order the
code uses), and derives `_scale_texture_gpu`. -/
def mkTex (data : Option Img) (req : FmtReq) : Except String (Tex × List Warn) :=
  let dd := data.map (·.dtype)
  let rep := create_rep_array data
  match get_texture_format_for_data (some rep) req with
  | .error e => .error e
  | .ok (fmt, autoFlag, ws) =>
      .ok ({ autoTextureFormat := autoFlag
           , clim := .noneV
           , dataDtype := dd
           , dataLimits := none
           , scaleTextureGpu := fmt.isSome
           , internalformat := fmt }, ws)

/-- The `clim` argument accepted by `set_clim`: a string, or a tuple of
numbers of any arity. -/
inductive ClimArg where
  | strA (s : String)
  | tupA (xs : List ℚ)
  deriving DecidableEq

/-- Embedding of `ScalableTexture2D.set_clim` (image.py:67).  Returns
the texture after the call, the `need_texture_upload` result, and the
raised error if any; both raises happen before any state mutation. -/
def set_clim (t : Tex) (c : ClimArg) : Tex × Bool × Option String :=
  match c with
  | .strA s =>
      if s = "auto" then ({ t with clim := .autoV }, true, none)
      else (t, false, some "ValueError: clim must be auto if a string")
  | .tupA xs =>
      match xs with
      | [cmin, cmax] =>
          let needUpload :=
            match t.dataLimits with
            | some (lo, hi) => decide (cmin < lo) || decide (hi < cmax)
            | none => false
          ({ t with clim := .pairV cmin cmax }, needUpload, none)
      | _ => (t, false, some "ValueError: clim must have two elements")

/-- Indexing `self.clim[i]` for i = 0, 1: a numeric component for a
resolved pair, the characters of the literal auto for the string
sentinel, and a TypeError when `_clim` is still `None`. -/
def climIndex (c : ClimSt) (i : ℕ) : Except String PyV :=
  match c with
  | .pairV lo hi => .ok (.q (if i = 0 then lo else hi))
  | .autoV => .ok (.sv (if i = 0 then "a" else "u"))
  | .noneV => .error "TypeError: NoneType is not subscriptable"

/-- Embedding of the `is_normalized` property (image.py:116): formats
whose tag ends in f or i are not normalized. -/
def is_normalized (t : Tex) : Bool :=
  match t.internalformat with
  | none => true
  | some s =>
      match s.toList.getLast? with
      | some c => !(c = 'f' || c = 'i')
      | none => true

/-- Embedding of `normalize_value` (image.py:136): passes the value
through unchanged for non-normalized formats, otherwise maps it through
the integer range of the input dtype (`np.iinfo` raises on a missing or
floating dtype). -/
def normalize_value (t : Tex) (v : PyV) (inputDtype : Option DType) :
    Except String PyV :=
  if !is_normalized t then .ok v
  else
    match inputDtype.bind iinfoQ with
    | none => .error "ValueError: iinfo is only defined for integer types"
    | some (dmin, dmax) =>
        match pySub v dmin with
        | .error e => .error e
        | .ok v2 => pyDivC v2 (dmax - dmin)

/-- Embedding of the `clim_normalized` property (image.py:89): for
GPU-scaled textures both clim components go through `normalize_value`;
for CPU-scaled textures they are mapped linearly through the recorded
`_data_limits` with no guard against a degenerate range. -/
def clim_normalized (t : Tex) : Except String (PyV × PyV) :=
  if t.scaleTextureGpu then
    match climIndex t.clim 0, climIndex t.clim 1 with
    | .ok a, .ok b =>
        match normalize_value t a t.dataDtype, normalize_value t b t.dataDtype with
        | .ok a2, .ok b2 => .ok (a2, b2)
        | .error e, _ => .error e
        | _, .error e => .error e
    | .error e, _ => .error e
    | _, .error e => .error e
  else
    match t.dataLimits with
    | none => .error "TypeError: cannot unpack NoneType"
    | some (rmin, rmax) =>
        match climIndex t.clim 0, climIndex t.clim 1 with
        | .ok a, .ok b =>
            match pySub a rmin, pySub b rmin with
            | .ok a2, .ok b2 =>
                match pyDivC a2 (rmax - rmin), pyDivC b2 (rmax - rmin) with
                | .ok a3, .ok b3 => .ok (a3, b3)
                | .error e, _ => .error e
                | _, .error e => .error e
            | .error e, _ => .error e
            | _, .error e => .error e
        | .error e, _ => .error e
        | _, .error e => .error e

/-- The sample at index `[0, 0]` of a matrix.  The Python code raises an
IndexError on an empty array; the theorems below only use this on
nonempty matrices. -/
def corner (m : List (List ℚ)) : ℚ := (m.headD []).headD 0

/-- Minimum over all samples (`np.min`); only used on nonempty data. -/
def matMin (m : List (List ℚ)) : ℚ :=
  match m.foldr (fun r acc => r ++ acc) [] with
  | [] => 0
  | x :: xs => xs.foldl min x

/-- Maximum over all samples (`np.max`); only used on nonempty data. -/
def matMax (m : List (List ℚ)) : ℚ :=
  match m.foldr (fun r acc => r ++ acc) [] with
  | [] => 0
  | x :: xs => xs.foldl max x

/-- Embedding of the static `_scale_data_on_cpu` (image.py:204), value
level: the float64 → float32 `astype` narrowing is the identity on this
exact model; `data - clim[0]` yields the shifted matrix; with a positive
clim range every sample is divided by it, otherwise the whole buffer is
set to 1 or 0 according to whether the corner sample of the shifted
buffer (`data[0, 0]` after the subtraction at image.py:208) is nonzero. -/
def scale_data_on_cpu (m : List (List ℚ)) (c0 c1 : ℚ) : List (List ℚ) :=
  let shifted := m.map (fun row => row.map (fun x => x - c0))
  if c1 - c0 > 0 then
    shifted.map (fun row => row.map (fun x => x / (c1 - c0)))
  else
    shifted.map (fun row => row.map (fun _ => if corner shifted ≠ 0 then 1 else 0))

/-- A store of numpy buffers, for tracking which buffer each operation
of `_scale_data_on_cpu` writes to. -/
def updStore (st : ℕ → List (List ℚ)) (i : ℕ) (v : List (List ℚ)) :
    ℕ → List (List ℚ) :=
  fun j => if j = i then v else st j

/-- Store-level embedding of `_scale_data_on_cpu`: `astype` (taken for
float64 input) allocates a copy; `data - clim[0]` allocates a fresh
buffer (the code comments that it is deliberately not in place); the
subsequent `/=` and `[:] =` write in place to that fresh buffer only.
Returns the store after the call, the next free id, and the id of the
returned buffer. -/
def scale_data_on_cpu_store (st : ℕ → List (List ℚ)) (next dataId : ℕ)
    (isF64 : Bool) (c0 c1 : ℚ) : (ℕ → List (List ℚ)) × ℕ × ℕ :=
  let st1 := if isF64 then updStore st next (st dataId) else st
  let cur1 := if isF64 then next else dataId
  let next1 := if isF64 then next + 1 else next
  let shifted := (st1 cur1).map (fun row => row.map (fun x => x - c0))
  let st2 := updStore st1 next1 shifted
  let final :=
    if c1 - c0 > 0 then
      shifted.map (fun row => row.map (fun x => x / (c1 - c0)))
    else
      shifted.map (fun row => row.map (fun _ => if corner shifted ≠ 0 then 1 else 0))
  (updStore st2 next1 final, next1 + 1, next1)

/-- Embedding of `ScalableTexture2D.set_data` (image.py:215): records
the dtype, resolves an auto clim (from the data for single-band input,
to (0, 1) for multi-band input), narrows clim to float32 (exact here),
rescales single-band data on the CPU when GPU scaling is disabled,
stores the resolved clim and the data limits, and returns the texture
together with the uploaded buffer.  A still-unset (`None`) clim on the
single-band path raises (`np.float32(None)`). -/
def tex_set_data (t : Tex) (img : Img) : Except String (Tex × List (List ℚ)) :=
  let t := { t with dataDtype := some img.dtype }
  let isAuto := t.clim = ClimSt.autoV
  if isSingleBand img then
    match ((if isAuto then .ok (matMin img.mat, matMax img.mat)
           else match t.clim with
                | .pairV lo hi => .ok (lo, hi)
                | _ => .error "TypeError: float argument required") :
           Except String (ℚ × ℚ)) with
    | .error e => .error e
    | .ok (c0, c1) =>
        let uploaded :=
          if !t.scaleTextureGpu then scale_data_on_cpu img.mat c0 c1 else img.mat
        let t := { t with
                   clim := .pairV c0 c1
                   , dataLimits := if t.scaleTextureGpu then none else some (c0, c1) }
        .ok (t, uploaded)
  else
    let clim2 := if isAuto then ClimSt.pairV 0 1 else t.clim
    let t := { t with
               clim := clim2
               , dataLimits :=
                   if t.scaleTextureGpu then none
                   else match clim2 with
                        | .pairV lo hi => some (lo, hi)
                        | _ => none }
    .ok (t, img.mat)

/-- A stage of the per-pixel color transform chain built by
`_build_color_transform` (image.py:345).  `bandReduceLum` models the
`_c2l` function, `clampRescale` the `_apply_clim_float` / `_apply_clim`
functions with their bound clim parameter, `gammaStage` the
`_apply_gamma_float` / `_apply_gamma` functions with their bound gamma,
`colormapLookup` the `cmap.glsl_map` function, and `identityStage` the
`_null_color_transform` function. -/
inductive CStage where
  | bandReduceLum
  | clampRescale (clim : PyV × PyV)
  | gammaStage (g : ℚ)
  | colormapLookup (cmap : String)
  | identityStage
  deriving DecidableEq

/-- Embedding of `_build_color_transform` (image.py:345): a four-stage
chain for luminance data, a three-stage chain (no colormap lookup) for
RGB/RGBA data; both have the clim and gamma parameters bound. -/
def build_color_transform (img : Img) (cn : PyV × PyV) (g : ℚ) (cmap : String) :
    List CStage :=
  if isSingleBand img then
    [.bandReduceLum, .clampRescale cn, .gammaStage g, .colormapLookup cmap]
  else
    [.identityStage, .clampRescale cn, .gammaStage g]

/-- A transform assigned to a shader stage by `_prepare_transforms`
(image.py:708): the forward scene transform, the stored
`NullTransform`, or the inverse of the scene transform. -/
inductive TAssign where
  | forwardT
  | nullT
  | inverseT
  deriving DecidableEq

/-- The names returned by `load_spatial_filters` (an external
collaborator), lowercased and sorted as in `__init__`.  Modelled from
the spec and the ImageVisual docstring (image.py:402), which enumerate
the catalog. -/
def interpolationNames : List String :=
  ["bessel", "bicubic", "bilinear", "blackman", "catrom", "gaussian",
   "hamming", "hanning", "hermite", "kaiser", "lanczos", "mitchell",
   "nearest", "quadric", "sinc", "spline16", "spline36"]

/-- State of an `ImageVisual` together with the per-view state
(`_need_method_update`, `_method_used`) of a single view and the
observables needed by the claims: the built color transform chain, a
counter of chain rebuilds, and the shader/program assignments. -/
structure VS where
  data : Option Img
  texture : Tex
  gamma : ℚ
  cmapName : String
  method : String
  interpolation : String
  needTextureUpload : Bool
  needVertexUpdate : Bool
  needColortransformUpdate : Bool
  needInterpolationUpdate : Bool
  viewNeedMethodUpdate : Bool
  methodUsed : Option String
  linearTransform : Bool
  chain : Option (List CStage)
  rebuildCount : ℕ
  texInterpolationMode : String
  lookupFn : Option String
  vertTransform : Option TAssign
  fragTransform : Option TAssign
  methodUniform : Option ℕ
  deriving DecidableEq

/-- In-place rebinding `self.shared_program.frag['color_transform'][1]['clim'] = v`
(image.py:556): stage index 1 of the existing chain is the clamp stage
in both chain shapes. -/
def chainSetClim (ch : List CStage) (v : PyV × PyV) : List CStage :=
  ch.set 1 (.clampRescale v)

/-- In-place rebinding `self.shared_program.frag['color_transform'][2]['gamma'] = v`
(image.py:582). -/
def chainSetGamma (ch : List CStage) (g : ℚ) : List CStage :=
  ch.set 2 (.gammaStage g)

/-- Embedding of the `ImageVisual.clim` setter (image.py:550).  Returns
the visual after the call and the raised error if any; mutations made
before a raise persist, as in Python. -/
def visual_set_clim (s : VS) (c : ClimArg) : VS × Option String :=
  match set_clim s.texture c with
  | (_, _, some e) => (s, some e)
  | (t2, needUpload, none) =>
      let s := { s with texture := t2 }
      let s := if needUpload then { s with needTextureUpload := true } else s
      if !s.needColortransformUpdate then
        match clim_normalized s.texture with
        | .error e => (s, some e)
        | .ok cn =>
            match s.chain with
            | none => (s, some "KeyError: color_transform")
            | some ch => ({ s with chain := some (chainSetClim ch cn) }, none)
      else (s, none)

/-- Embedding of the `ImageVisual.gamma` setter (image.py:574): values
not greater than zero are rejected before any mutation; otherwise the
value is stored and, when no chain rebuild is pending, the gamma
parameter of the existing chain is rebound in place. -/
def visual_set_gamma (s : VS) (g : ℚ) : VS × Option String :=
  if g ≤ 0 then (s, some "ValueError: gamma must be greater than zero")
  else
    let s := { s with gamma := g }
    if !s.needColortransformUpdate then
      match s.chain with
      | none => (s, some "KeyError: color_transform")
      | some ch => ({ s with chain := some (chainSetGamma ch g) }, none)
    else (s, none)

/-- Embedding of the `ImageVisual.method` setter (image.py:589): any
value is accepted; a differing value is stored and marks the vertex
data dirty.  No validation happens here. -/
def visual_set_method (s : VS) (m : String) : VS × Option String :=
  if s.method ≠ m then
    ({ s with method := m, needVertexUpdate := true }, none)
  else (s, none)

/-- Embedding of the `ImageVisual.interpolation` setter (image.py:604):
unknown names are rejected, enumerating the valid set, before any
mutation. -/
def visual_set_interpolation (s : VS) (i : String) : VS × Option String :=
  if !interpolationNames.contains i then
    (s, some ("ValueError: interpolation must be one of " ++
              String.intercalate ", " interpolationNames))
  else if s.interpolation ≠ i then
    ({ s with interpolation := i, needInterpolationUpdate := true }, none)
  else (s, none)

/-- Embedding of the `ImageVisual.cmap` setter (image.py:563). -/
def visual_set_cmap (s : VS) (c : String) : VS :=
  { s with cmapName := c, needColortransformUpdate := true }

/-- Embedding of `_build_interpolation` (image.py:620): selects the
lookup function for the stored interpolation (a KeyError on a name
outside the catalog, unreachable through the validated setters), sets
the hardware filter mode (linear only for bilinear), and clears its
flag. -/
def build_interpolation (s : VS) : VS × Option String :=
  if interpolationNames.contains s.interpolation then
    ({ s with
       lookupFn := some s.interpolation
       , texInterpolationMode :=
           if s.interpolation = "bilinear" then "linear" else "nearest"
       , needInterpolationUpdate := false }, none)
  else (s, some "KeyError: unknown interpolation")

/-- Embedding of `_build_texture` (image.py:696): uploads the stored
data through `tex_set_data`, sets the colortransform-rebuild flag (a
flag this step does not own), and clears its own flag. -/
def build_texture (s : VS) : VS × Option String :=
  match s.data with
  | none => (s, some "AttributeError: NoneType has no attribute ndim")
  | some img =>
      match tex_set_data s.texture img with
      | .error e => (s, some e)
      | .ok (t2, _uploaded) =>
          ({ s with
             texture := t2
             , needColortransformUpdate := true
             , needTextureUpload := false }, none)

/-- The colortransform branch of `_prepare_draw` (image.py:729):
rebuilds the whole chain from the data, the normalized clim, the gamma
and the colormap, and clears its flag.  The rebuild counter models the
external rebuild counter of the spec. -/
def build_colortransform (s : VS) : VS × Option String :=
  match s.data with
  | none => (s, some "AttributeError: no data")
  | some img =>
      match clim_normalized s.texture with
      | .error e => (s, some e)
      | .ok cn =>
          ({ s with
             chain := some (build_color_transform img cn s.gamma s.cmapName)
             , rebuildCount := s.rebuildCount + 1
             , needColortransformUpdate := false }, none)

/-- The vertex branch of `_prepare_draw` (image.py:738): rebuilds the
subdivision grid buffers (`_build_vertex_data`) and clears its flag. -/
def build_vertex (s : VS) : VS × Option String :=
  ({ s with needVertexUpdate := false }, none)

/-- Embedding of `_prepare_transforms` (image.py:708): the subdivide
method gets the forward transform in the vertex shader and the null
transform in the fragment shader; any other method gets the null
transform in the vertex shader and the inverse transform in the
fragment shader. -/
def prepare_transforms (s : VS) : VS :=
  if s.methodUsed = some "subdivide" then
    { s with vertTransform := some .forwardT, fragTransform := some .nullT }
  else
    { s with vertTransform := some .nullT, fragTransform := some .inverseT }

/-- Embedding of `_update_method` (image.py:670): auto resolves to
subdivide for a linear transform and impostor otherwise; the resolved
name is recorded in `_method_used` before validation; unknown names
raise after that record, so the method flag stays set; on success the
program attributes are assigned, the flag cleared, and the transforms
prepared. -/
def update_method (s : VS) : VS × Option String :=
  let m := if s.method = "auto"
           then (if s.linearTransform then "subdivide" else "impostor")
           else s.method
  let s := { s with methodUsed := some m }
  if m = "subdivide" then
    let s := { s with methodUniform := some 0, viewNeedMethodUpdate := false }
    (prepare_transforms s, none)
  else if m = "impostor" then
    let s := { s with methodUniform := some 1, viewNeedMethodUpdate := false }
    (prepare_transforms s, none)
  else (s, some "ValueError: unknown image draw method")

/-- The five rebuild steps of `_prepare_draw`, in source order. -/
inductive Step where
  | interp
  | textureUp
  | colortransform
  | vertex
  | methodSel
  deriving DecidableEq

/-- Run one guarded rebuild step of `_prepare_draw`: if an earlier step
already raised, nothing further runs (the exception propagates); if the
step's flag (read from the current state) is clear the step is a
no-op; otherwise the step body runs and is recorded. -/
def stepRun (flag : VS → Bool) (body : VS → VS × Option String) (tag : Step)
    (acc : VS × List Step × Option String) : VS × List Step × Option String :=
  match acc with
  | (s, l, some e) => (s, l, some e)
  | (s, l, none) =>
      if flag s then
        match body s with
        | (t, e) => (t, l ++ [tag], e)
      else (s, l, none)

/-- Embedding of `_prepare_draw` (image.py:719): returns `False`
without running any step when no data has ever been assigned;
otherwise runs each step whose flag is set, in the fixed source order
(interpolation, texture upload, colortransform, vertex, method),
stopping at the first raised error.  Returns the state, the list of
executed steps, the proceed flag, and the error if one was raised. -/
def prepare_draw (s : VS) : VS × List Step × Bool × Option String :=
  match s.data with
  | none => (s, [], false, none)
  | some _ =>
      let r := stepRun (·.needInterpolationUpdate) build_interpolation .interp
        (s, [], none)
      let r := stepRun (·.needTextureUpload) build_texture .textureUp r
      let r := stepRun (·.needColortransformUpdate) build_colortransform
        .colortransform r
      let r := stepRun (·.needVertexUpdate) build_vertex .vertex r
      let r := stepRun (·.viewNeedMethodUpdate) update_method .methodSel r
      (r.1, r.2.1, true, r.2.2)

/-- The step schedule `_prepare_draw` executes on a state: each flagged
step in source order, with the colortransform step also running when a
texture upload ran (the upload sets that flag). -/
def scheduledSteps (s : VS) : List Step :=
  (if s.needInterpolationUpdate then [Step.interp] else []) ++
  (if s.needTextureUpload then [Step.textureUp] else []) ++
  (if s.needColortransformUpdate || s.needTextureUpload then [Step.colortransform] else []) ++
  (if s.needVertexUpdate then [Step.vertex] else []) ++
  (if s.viewNeedMethodUpdate then [Step.methodSel] else [])

/-- Modelled from the spec: the expected internalformat for each
supported element type and channel count, the table tag with its
single-channel placeholder substituted to r / rgb / rgba. -/
def expected_internalformat (d : DType) (ch : ℕ) : Option String :=
  match d, ch with
  | .f32, 1 => some "r32f" | .f32, 3 => some "rgb32f" | .f32, 4 => some "rgba32f"
  | .f64, 1 => some "r32f" | .f64, 3 => some "rgb32f" | .f64, 4 => some "rgba32f"
  | .u8, 1 => some "r8" | .u8, 3 => some "rgb8" | .u8, 4 => some "rgba8"
  | .u16, 1 => some "r16" | .u16, 3 => some "rgb16" | .u16, 4 => some "rgba16"
  | .u32, 1 => some "r32" | .u32, 3 => some "rgb32" | .u32, 4 => some "rgba32"
  | .i8, 1 => some "r8" | .i8, 3 => some "rgb8" | .i8, 4 => some "rgba8"
  | .i16, 1 => some "r16" | .i16, 3 => some "rgb16" | .i16, 4 => some "rgba16"
  | .i32, 1 => some "r32" | .i32, 3 => some "rgb32" | .i32, 4 => some "rgba32"
  | _, _ => none

/-- Modelled from the spec: the inverse of the linear map sending
`[lo, hi]` to `[0, 1]`, used to state the clim round trip. -/
def inverse_clim_map (lo hi v : ℚ) : ℚ := v * (hi - lo) + lo

/-- A sample CPU-scaled texture state (texture_format `None`). -/
def baseTex : Tex :=
  { autoTextureFormat := false, clim := .pairV 0 1, dataDtype := some .u8,
    dataLimits := some (0, 1), scaleTextureGpu := false, internalformat := none }

/-- A sample GPU-scaled float32 texture state. -/
def gpuTex : Tex :=
  { autoTextureFormat := true, clim := .pairV 2 4, dataDtype := some .f32,
    dataLimits := none, scaleTextureGpu := true, internalformat := some "r32f" }

/-- A sample single-band uint8 raster. -/
def imgU8 : Img := { dtype := .u8, ndim3 := false, bands := 1, mat := [[0, 1]] }

/-- A sample single-band float32 raster. -/
def imgF32 : Img := { dtype := .f32, ndim3 := false, bands := 1, mat := [[2, 4]] }

/-- A sample visual state after a completed first draw: all dirty flags
clear and a built chain. -/
def baseVS : VS :=
  { data := some imgU8, texture := baseTex, gamma := 1, cmapName := "viridis",
    method := "auto", interpolation := "nearest",
    needTextureUpload := false, needVertexUpdate := false,
    needColortransformUpdate := false, needInterpolationUpdate := false,
    viewNeedMethodUpdate := false, methodUsed := none, linearTransform := true,
    chain := some [.bandReduceLum, .clampRescale (.q 0, .q 1), .gammaStage 1,
                   .colormapLookup "viridis"],
    rebuildCount := 5, texInterpolationMode := "nearest",
    lookupFn := some "nearest", vertTransform := none, fragTransform := none,
    methodUniform := none }

/-- The sample visual in GPU-scaled configuration. -/
def gpuVS : VS := { baseVS with texture := gpuTex, data := some imgF32 }

/-- The sample CPU texture with clim still the auto sentinel. -/
def autoTex : Tex := { baseTex with clim := ClimSt.autoV }

/-- A 2 by 2 single-band raster of fives (all samples equal). -/
def img5 : Img := { dtype := .u8, ndim3 := false, bands := 1, mat := [[5, 5], [5, 5]] }

/-- The texture state `tex_set_data autoTex img5` produces. -/
def tex5 : Tex :=
  { autoTextureFormat := false, clim := .pairV 5 5, dataDtype := some .u8,
    dataLimits := some (5, 5), scaleTextureGpu := false, internalformat := none }

/-- A GPU-scaled normalized uint8 texture with clim (10, 200). -/
def texR8 : Tex :=
  { baseTex with
    scaleTextureGpu := true,
    internalformat := some "r8",
    clim := .pairV 10 200 }

/-- A CPU-scaled texture with data limits (1, 3) and clim (1, 2). -/
def texCpu13 : Tex := { baseTex with dataLimits := some (1, 3), clim := .pairV 1 2 }

/-- A CPU-scaled texture with an explicit clim (1, 3). -/
def texPair13 : Tex := { baseTex with clim := .pairV 1 3 }

/-- That texture after `tex_set_data` with `imgMix`. -/
def texPair13After : Tex :=
  { autoTextureFormat := false, clim := .pairV 1 3, dataDtype := some .u8,
    dataLimits := some (1, 3), scaleTextureGpu := false, internalformat := none }

/-- A 2 by 2 single-band raster with samples 1, 2, 3, 1. -/
def imgMix : Img := { dtype := .u8, ndim3 := false, bands := 1, mat := [[1, 2], [3, 1]] }

/-- C3: evaluation of the constructor at texture_format auto with no
data.  The claim (and the warning text at image.py:179) say this falls
back to CPU scaling with a fallback warning; instead, because
`_create_rep_array` replaces the data before format resolution
(image.py:57-58), the format resolves from the float64 representative
zeros array to rgba32f, GPU scaling is enabled, and the float64
precision warning is emitted. -/
theorem c3_auto_no_data_enables_gpu_scaling :
    mkTex none .autoReq =
      .ok ({ autoTextureFormat := true, clim := .noneV, dataDtype := none,
             dataLimits := none, scaleTextureGpu := true,
             internalformat := some "rgba32f" }, [Warn.f64Precision]) := by
  rfl

/-- C6: the color transform chain is determined by band count: for
1-band data it is exactly band-reduce-to-luminance, clamp-and-rescale
with the clim bound, gamma, colormap lookup, in that order; for 3- or
4-band data it is exactly identity, clamp-and-rescale, gamma with no
colormap stage. -/
theorem c6_chain_by_band_count (img : Img) (cn : PyV × PyV) (g : ℚ) (cm : String) :
    (data_num_channels (some img) = 1 →
      build_color_transform img cn g cm =
        [.bandReduceLum, .clampRescale cn, .gammaStage g, .colormapLookup cm]) ∧
    (data_num_channels (some img) = 3 ∨ data_num_channels (some img) = 4 →
      build_color_transform img cn g cm =
        [.identityStage, .clampRescale cn, .gammaStage g]) := by
  cases hn : img.ndim3 with
  | false =>
      refine ⟨fun _ => ?_, fun h => ?_⟩
      · simp [build_color_transform, isSingleBand, hn]
      · simp [data_num_channels, hn] at h
  | true =>
      refine ⟨fun h => ?_, fun h => ?_⟩
      · simp [data_num_channels, hn] at h
        simp [build_color_transform, isSingleBand, hn, h]
      · simp [data_num_channels, hn] at h
        have hb : img.bands ≠ 1 := by rcases h with h | h <;> omega
        simp [build_color_transform, isSingleBand, hn, hb]

/-- Witness for C6 at a 1-band and at a 3-band raster. -/
theorem c6_chain_by_band_count_witness :
    build_color_transform imgU8 (.q 0, .q 1) 1 "viridis" =
      [.bandReduceLum, .clampRescale (.q 0, .q 1), .gammaStage 1,
       .colormapLookup "viridis"] ∧
    build_color_transform { dtype := .f32, ndim3 := true, bands := 3, mat := [] }
        (.q 0, .q 1) 1 "viridis" =
      [.identityStage, .clampRescale (.q 0, .q 1), .gammaStage 1] :=
  ⟨(c6_chain_by_band_count imgU8 (.q 0, .q 1) 1 "viridis").1 (by decide),
   (c6_chain_by_band_count { dtype := .f32, ndim3 := true, bands := 3, mat := [] }
      (.q 0, .q 1) 1 "viridis").2 (Or.inl (by decide))⟩

lemma foldl_min_all (c : ℚ) : ∀ (xs : List ℚ) (x : ℚ), x = c →
    (∀ y ∈ xs, y = c) → xs.foldl min x = c := by
  intro xs
  induction xs with
  | nil => intro x hx _; simpa using hx
  | cons a as ih =>
      intro x hx h
      have ha : a = c := h a (by simp)
      have h2 : ∀ y ∈ as, y = c := fun y hy => h y (by simp [hy])
      simpa using ih (min x a) (by simp [hx, ha]) h2

lemma foldl_max_all (c : ℚ) : ∀ (xs : List ℚ) (x : ℚ), x = c →
    (∀ y ∈ xs, y = c) → xs.foldl max x = c := by
  intro xs
  induction xs with
  | nil => intro x hx _; simpa using hx
  | cons a as ih =>
      intro x hx h
      have ha : a = c := h a (by simp)
      have h2 : ∀ y ∈ as, y = c := fun y hy => h y (by simp [hy])
      simpa using ih (max x a) (by simp [hx, ha]) h2

lemma matMin_const (m : List (List ℚ)) (c : ℚ)
    (hne : m.foldr (fun r acc => r ++ acc) [] ≠ [])
    (hall : ∀ x ∈ m.foldr (fun r acc => r ++ acc) [], x = c) :
    matMin m = c := by
  unfold matMin
  cases he : m.foldr (fun r acc => r ++ acc) [] with
  | nil => exact absurd he hne
  | cons x xs =>
      rw [he] at hall
      exact foldl_min_all c xs x (hall x (by simp))
        (fun y hy => hall y (by simp [hy]))

lemma matMax_const (m : List (List ℚ)) (c : ℚ)
    (hne : m.foldr (fun r acc => r ++ acc) [] ≠ [])
    (hall : ∀ x ∈ m.foldr (fun r acc => r ++ acc) [], x = c) :
    matMax m = c := by
  unfold matMax
  cases he : m.foldr (fun r acc => r ++ acc) [] with
  | nil => exact absurd he hne
  | cons x xs =>
      rw [he] at hall
      exact foldl_max_all c xs x (hall x (by simp))
        (fun y hy => hall y (by simp [hy]))

/-- C10: after assigning a single-band raster whose samples are all
equal to a CPU-scaled texture with auto clim, the recorded data limits
are degenerate and reading `clim_normalized` performs the unguarded
division (image.py:112-113) as 0/0 in each component, yielding NaN in
both slots instead of a valid pair or a raised error. -/
theorem c10_degenerate_clim_normalized_nan
    (t : Tex) (img : Img) (c : ℚ) (t2 : Tex) (up : List (List ℚ))
    (hgpu : t.scaleTextureGpu = false)
    (hauto : t.clim = ClimSt.autoV)
    (hsb : isSingleBand img = true)
    (hne : img.mat.foldr (fun r acc => r ++ acc) [] ≠ [])
    (hall : ∀ x ∈ img.mat.foldr (fun r acc => r ++ acc) [], x = c)
    (hset : tex_set_data t img = .ok (t2, up)) :
    t2.dataLimits = some (c, c) ∧
    clim_normalized t2 = .ok (PyV.nan, PyV.nan) := by
  have hmin : matMin img.mat = c := matMin_const img.mat c hne hall
  have hmax : matMax img.mat = c := matMax_const img.mat c hne hall
  unfold tex_set_data at hset
  simp [hsb, hauto, hgpu, hmin, hmax] at hset
  obtain ⟨ht2, _hup⟩ := hset
  subst ht2
  refine ⟨by simp [hgpu], ?_⟩
  simp [clim_normalized, hgpu, climIndex, pySub, pyDivC]

/-- Witness for C10 at a 2 by 2 raster of fives. -/
theorem c10_degenerate_clim_normalized_nan_witness :
    tex_set_data autoTex img5 = .ok (tex5, [[0, 0], [0, 0]]) ∧
    tex5.dataLimits = some (5, 5) ∧
    clim_normalized tex5 = .ok (PyV.nan, PyV.nan) := by
  have hset : tex_set_data autoTex img5 = .ok (tex5, [[0, 0], [0, 0]]) := by
    norm_num [tex_set_data, autoTex, baseTex, img5, tex5, isSingleBand,
              matMin, matMax, scale_data_on_cpu, corner, List.replicate]
  exact ⟨hset, by decide,
    (c10_degenerate_clim_normalized_nan autoTex img5 5 tex5 [[0, 0], [0, 0]]
      (by decide) (by decide) (by decide) (by decide) (by decide) hset).2⟩

lemma scale_store_untouched (st : ℕ → List (List ℚ)) (next dataId : ℕ)
    (isF64 : Bool) (c0 c1 : ℚ) (h : dataId < next) :
    (scale_data_on_cpu_store st next dataId isF64 c0 c1).1 dataId = st dataId ∧
    (scale_data_on_cpu_store st next dataId isF64 c0 c1).2.2 ≠ dataId ∧
    (scale_data_on_cpu_store st next dataId isF64 c0 c1).1
        ((scale_data_on_cpu_store st next dataId isF64 c0 c1).2.2) =
      scale_data_on_cpu (st dataId) c0 c1 := by
  have h1 : dataId ≠ next := Nat.ne_of_lt h
  have h2 : dataId ≠ next + 1 := by omega
  cases isF64 <;>
    simp [scale_data_on_cpu_store, scale_data_on_cpu, updStore, h1, h2,
          Ne.symm h1, Ne.symm h2]

lemma corner_map_sub (m : List (List ℚ)) (c : ℚ) (h1 : m ≠ [])
    (h2 : m.headD [] ≠ []) :
    corner (m.map (fun row => row.map (fun x => x - c))) = corner m - c := by
  cases m with
  | nil => exact absurd rfl h1
  | cons r rs =>
      cases r with
      | nil => simp at h2
      | cons a as => simp [corner]

/-- C1: for a single-band raster assigned to a CPU-scaled texture with
resolved clim (mn, mx): with a positive range every uploaded sample is
(x - mn) / (mx - mn); with mx = mn the uploaded buffer is uniformly 1
when the corner sample of the buffer being scaled (the original corner
minus mn, after the subtraction step) is nonzero and uniformly 0
otherwise; and the buffer the caller passed in is never written to —
every in-place write of `_scale_data_on_cpu` lands on the freshly
allocated buffer. -/
theorem c1_cpu_scaling_on_set_data
    (t : Tex) (img : Img) (mn mx : ℚ) (t2 : Tex) (up : List (List ℚ))
    (hgpu : t.scaleTextureGpu = false)
    (hsb : isSingleBand img = true)
    (hrows : img.mat ≠ [])
    (hcols : img.mat.headD [] ≠ [])
    (hres : (if t.clim = ClimSt.autoV then some (matMin img.mat, matMax img.mat)
             else match t.clim with
                  | .pairV lo hi => some (lo, hi)
                  | _ => none) = some (mn, mx))
    (hset : tex_set_data t img = .ok (t2, up)) :
    (mx - mn > 0 →
      up = img.mat.map (fun row => row.map (fun x => (x - mn) / (mx - mn)))) ∧
    (mx = mn →
      up = img.mat.map (fun row => row.map (fun _ =>
        if corner img.mat - mn ≠ 0 then (1 : ℚ) else 0))) ∧
    (∀ st next dataId isF64, dataId < next →
      (scale_data_on_cpu_store st next dataId isF64 mn mx).1 dataId = st dataId ∧
      (scale_data_on_cpu_store st next dataId isF64 mn mx).2.2 ≠ dataId ∧
      (scale_data_on_cpu_store st next dataId isF64 mn mx).1
          ((scale_data_on_cpu_store st next dataId isF64 mn mx).2.2) =
        scale_data_on_cpu (st dataId) mn mx) := by
  have hup : up = scale_data_on_cpu img.mat mn mx := by
    cases hc : t.clim with
    | autoV =>
        rw [hc] at hres
        simp at hres
        obtain ⟨hmn, hmx⟩ := hres
        unfold tex_set_data at hset
        simp [hsb, hc, hgpu, hmn, hmx] at hset
        exact hset.2.symm
    | pairV lo hi =>
        rw [hc] at hres
        simp at hres
        obtain ⟨hmn, hmx⟩ := hres
        unfold tex_set_data at hset
        simp [hsb, hc, hgpu, hmn, hmx] at hset
        exact hset.2.symm
    | noneV =>
        rw [hc] at hres
        simp at hres
  refine ⟨?_, ?_, fun st next dataId isF64 h =>
    scale_store_untouched st next dataId isF64 mn mx h⟩
  · intro hpos
    rw [hup]
    unfold scale_data_on_cpu
    rw [if_pos hpos]
    simp [List.map_map, Function.comp]
  · intro heq
    rw [hup]
    unfold scale_data_on_cpu
    rw [if_neg (by rw [heq]; simp)]
    rw [corner_map_sub img.mat mn hrows hcols]
    simp [List.map_map, Function.comp]

/-- Witness for C1 at the raster 1, 2, 3, 1 with clim (1, 3). -/
theorem c1_cpu_scaling_on_set_data_witness :
    tex_set_data texPair13 imgMix =
      .ok (texPair13After, [[0, 1/2], [1, 0]]) ∧
    ([[0, 1/2], [1, 0]] : List (List ℚ)) =
      imgMix.mat.map (fun row => row.map (fun x => (x - 1) / (3 - 1))) := by
  have hset : tex_set_data texPair13 imgMix =
      .ok (texPair13After, [[0, 1/2], [1, 0]]) := by
    have hne : (ClimSt.pairV 1 3 = ClimSt.autoV) = False := by simp
    norm_num [tex_set_data, texPair13, baseTex, imgMix, texPair13After,
              isSingleBand, scale_data_on_cpu, corner, hne]
  refine ⟨hset, ?_⟩
  have := (c1_cpu_scaling_on_set_data texPair13 imgMix 1 3 texPair13After
    [[0, 1/2], [1, 0]] (by decide) (by decide) (by decide) (by decide)
    (by decide) hset).1 (by norm_num)
  simpa using this

lemma iinfo_lo_lt_hi {d : DType} {lo hi : ℚ} (h : iinfoQ d = some (lo, hi)) :
    lo < hi := by
  cases d <;> simp_all [iinfoQ] <;> obtain ⟨h1, h2⟩ := h <;> subst h1 <;> subst h2 <;>
    norm_num

/-- C2: round trip of normalized color limits.  For a GPU-scaled
texture with a normalized-unsigned storage format, mapping the clim
through the input dtype integer range and applying the inverse map
recovers the clim exactly; for a CPU-scaled texture, mapping through
the recorded data limits and back likewise recovers the clim; for
non-normalized formats (tag ending in f or i) `clim_normalized` returns
the clim unchanged. -/
theorem c2_clim_normalized_round_trip :
    (∀ (t : Tex) (d : DType) (lo hi c0 c1 : ℚ),
       t.scaleTextureGpu = true → t.dataDtype = some d →
       iinfoQ d = some (lo, hi) → is_normalized t = true →
       t.clim = ClimSt.pairV c0 c1 →
       ∃ n0 n1, clim_normalized t = .ok (.q n0, .q n1) ∧
         inverse_clim_map lo hi n0 = c0 ∧ inverse_clim_map lo hi n1 = c1) ∧
    (∀ (t : Tex) (rmin rmax c0 c1 : ℚ),
       t.scaleTextureGpu = false → t.dataLimits = some (rmin, rmax) →
       rmin ≠ rmax → t.clim = ClimSt.pairV c0 c1 →
       ∃ n0 n1, clim_normalized t = .ok (.q n0, .q n1) ∧
         inverse_clim_map rmin rmax n0 = c0 ∧ inverse_clim_map rmin rmax n1 = c1) ∧
    (∀ (t : Tex) (f : String) (c0 c1 : ℚ),
       t.scaleTextureGpu = true → t.internalformat = some f →
       (f.data.getLast? = some 'f' ∨ f.data.getLast? = some 'i') →
       t.clim = ClimSt.pairV c0 c1 →
       clim_normalized t = .ok (.q c0, .q c1)) := by
  refine ⟨?_, ?_, ?_⟩
  · intro t d lo hi c0 c1 hgpu hdd hiinfo hnorm hclim
    have hlt := iinfo_lo_lt_hi hiinfo
    have hne : hi - lo ≠ 0 := sub_ne_zero.mpr hlt.ne'
    refine ⟨(c0 - lo) / (hi - lo), (c1 - lo) / (hi - lo), ?_, ?_, ?_⟩
    · simp [clim_normalized, hgpu, hclim, climIndex, normalize_value, hnorm,
            hdd, hiinfo, pySub, pyDivC, hne]
    · unfold inverse_clim_map; field_simp
    · unfold inverse_clim_map; field_simp
  · intro t rmin rmax c0 c1 hgpu hdl hne2 hclim
    have hne : rmax - rmin ≠ 0 := sub_ne_zero.mpr (Ne.symm hne2)
    refine ⟨(c0 - rmin) / (rmax - rmin), (c1 - rmin) / (rmax - rmin), ?_, ?_, ?_⟩
    · simp [clim_normalized, hgpu, hdl, hclim, climIndex, pySub, pyDivC, hne]
    · unfold inverse_clim_map; field_simp
    · unfold inverse_clim_map; field_simp
  · intro t f c0 c1 hgpu hif hlast hclim
    have hn : is_normalized t = false := by
      unfold is_normalized
      rw [hif]
      rcases hlast with h | h <;> simp [h]
    simp [clim_normalized, hgpu, hclim, climIndex, normalize_value, hn]

/-- Witness for C2: the GPU normalized case at uint8 with clim
(10, 200), the CPU case at data limits (1, 3) with clim (1, 2), and the
passthrough case at r32f. -/
theorem c2_clim_normalized_round_trip_witness :
    (∃ n0 n1, clim_normalized texR8 = .ok (.q n0, .q n1) ∧
      inverse_clim_map 0 255 n0 = 10 ∧ inverse_clim_map 0 255 n1 = 200) ∧
    (∃ n0 n1, clim_normalized texCpu13 = .ok (.q n0, .q n1) ∧
      inverse_clim_map 1 3 n0 = 1 ∧ inverse_clim_map 1 3 n1 = 2) ∧
    clim_normalized gpuTex = .ok (.q 2, .q 4) :=
  ⟨c2_clim_normalized_round_trip.1 texR8 .u8 0 255 10 200 (by decide) (by decide)
      (by decide) (by decide) (by decide),
   c2_clim_normalized_round_trip.2.1 texCpu13 1 3 1 2 (by decide) (by decide)
      (by decide) (by decide),
   c2_clim_normalized_round_trip.2.2 gpuTex "r32f" 2 4 (by decide) (by decide)
      (Or.inl (by decide)) (by decide)⟩

lemma stepRun_ok_char (flag : VS → Bool) (body : VS → VS × Option String)
    (tag : Step) (s : VS) (l : List Step) (t : VS) (l2 : List Step)
    (e2 : Option String)
    (h : stepRun flag body tag (s, l, none) = (t, l2, e2)) :
    (flag s = false ∧ t = s ∧ l2 = l ∧ e2 = none) ∨
    (flag s = true ∧ body s = (t, e2) ∧ l2 = l ++ [tag]) := by
  rcases hb : body s with ⟨u, e⟩
  by_cases hf : flag s = true
  · right
    have h2 : ((u, l ++ [tag], e) : VS × List Step × Option String) = (t, l2, e2) := by
      rw [← h]
      simp [stepRun, hf, hb]
    simp only [Prod.mk.injEq] at h2
    exact ⟨hf, by rw [h2.1, h2.2.2], h2.2.1.symm⟩
  · left
    have h2 : ((s, l, none) : VS × List Step × Option String) = (t, l2, e2) := by
      rw [← h]
      simp [stepRun, hf]
    simp only [Prod.mk.injEq] at h2
    exact ⟨by simpa using hf, h2.1.symm, h2.2.1.symm, h2.2.2.symm⟩

lemma build_interpolation_ok (s t : VS) (h : build_interpolation s = (t, none)) :
    t = { s with
          lookupFn := some s.interpolation,
          texInterpolationMode := ite (s.interpolation = "bilinear") "linear" "nearest",
          needInterpolationUpdate := false } := by
  unfold build_interpolation at h
  split at h
  · exact ((Prod.mk.injEq _ _ _ _).mp h).1.symm
  · exact absurd ((Prod.mk.injEq _ _ _ _).mp h).2 (by simp)

lemma build_texture_ok (s t : VS) (h : build_texture s = (t, none)) :
    ∃ img t2 up, s.data = some img ∧ tex_set_data s.texture img = .ok (t2, up) ∧
      t = { s with
            texture := t2,
            needColortransformUpdate := true,
            needTextureUpload := false } := by
  unfold build_texture at h
  cases hd : s.data with
  | none =>
      rw [hd] at h
      dsimp only at h
      exact absurd ((Prod.mk.injEq _ _ _ _).mp h).2 (by simp)
  | some img =>
      rw [hd] at h
      dsimp only at h
      cases hs : tex_set_data s.texture img with
      | error e =>
          rw [hs] at h
          dsimp only at h
          exact absurd ((Prod.mk.injEq _ _ _ _).mp h).2 (by simp)
      | ok p =>
          rcases p with ⟨t2, up⟩
          rw [hs] at h
          dsimp only at h
          exact ⟨img, t2, up, rfl, hs, ((Prod.mk.injEq _ _ _ _).mp h).1.symm⟩

lemma build_colortransform_ok (s t : VS) (h : build_colortransform s = (t, none)) :
    ∃ img cn, s.data = some img ∧ clim_normalized s.texture = .ok cn ∧
      t = { s with
            chain := some (build_color_transform img cn s.gamma s.cmapName),
            rebuildCount := s.rebuildCount + 1,
            needColortransformUpdate := false } := by
  unfold build_colortransform at h
  cases hd : s.data with
  | none =>
      rw [hd] at h
      dsimp only at h
      exact absurd ((Prod.mk.injEq _ _ _ _).mp h).2 (by simp)
  | some img =>
      rw [hd] at h
      dsimp only at h
      cases hcn : clim_normalized s.texture with
      | error e =>
          rw [hcn] at h
          dsimp only at h
          exact absurd ((Prod.mk.injEq _ _ _ _).mp h).2 (by simp)
      | ok cn =>
          rw [hcn] at h
          dsimp only at h
          exact ⟨img, cn, rfl, rfl, ((Prod.mk.injEq _ _ _ _).mp h).1.symm⟩

lemma update_method_ok_effect (s t : VS) (h : update_method s = (t, none)) :
    t.needInterpolationUpdate = s.needInterpolationUpdate ∧
    t.needTextureUpload = s.needTextureUpload ∧
    t.needColortransformUpdate = s.needColortransformUpdate ∧
    t.needVertexUpdate = s.needVertexUpdate ∧
    t.viewNeedMethodUpdate = false ∧
    t.data = s.data ∧ t.rebuildCount = s.rebuildCount := by
  unfold update_method prepare_transforms at h
  dsimp only at h
  by_cases ha : s.method = "auto"
  · by_cases hl : s.linearTransform = true
    · simp only [ha, hl] at h
      simp at h
      subst h
      simp
    · simp only [ha, hl] at h
      simp at h
      subst h
      simp
  · by_cases hs1 : s.method = "subdivide"
    · simp only [ha, hs1] at h
      simp at h
      subst h
      simp
    · by_cases hs2 : s.method = "impostor"
      · simp only [ha, hs1, hs2] at h
        simp at h
        subst h
        simp
      · simp [ha, hs1, hs2] at h

lemma stage_interp (s t1 : VS) (l l1 : List Step)
    (h : stepRun (·.needInterpolationUpdate) build_interpolation .interp
      (s, l, none) = (t1, l1, none)) :
    t1.needInterpolationUpdate = false ∧
    t1.needTextureUpload = s.needTextureUpload ∧
    t1.needColortransformUpdate = s.needColortransformUpdate ∧
    t1.needVertexUpdate = s.needVertexUpdate ∧
    t1.viewNeedMethodUpdate = s.viewNeedMethodUpdate ∧
    t1.data = s.data ∧ t1.rebuildCount = s.rebuildCount ∧
    l1 = l ++ (if s.needInterpolationUpdate then [Step.interp] else []) := by
  rcases stepRun_ok_char _ _ _ _ _ _ _ _ h with ⟨hf, rfl, rfl, _⟩ | ⟨hf, hb, rfl⟩
  · simp [hf]
  · have hbo := build_interpolation_ok s t1 hb
    subst hbo
    simp [hf]

lemma stage_texture (t1 t2 : VS) (l l2 : List Step)
    (h : stepRun (·.needTextureUpload) build_texture .textureUp
      (t1, l, none) = (t2, l2, none)) :
    t2.needInterpolationUpdate = t1.needInterpolationUpdate ∧
    t2.needTextureUpload = false ∧
    t2.needColortransformUpdate =
      (t1.needTextureUpload || t1.needColortransformUpdate) ∧
    t2.needVertexUpdate = t1.needVertexUpdate ∧
    t2.viewNeedMethodUpdate = t1.viewNeedMethodUpdate ∧
    t2.data = t1.data ∧ t2.rebuildCount = t1.rebuildCount ∧
    l2 = l ++ (if t1.needTextureUpload then [Step.textureUp] else []) := by
  rcases stepRun_ok_char _ _ _ _ _ _ _ _ h with ⟨hf, rfl, rfl, _⟩ | ⟨hf, hb, rfl⟩
  · simp [hf]
  · obtain ⟨img, tt, up, _, _, hbo⟩ := build_texture_ok t1 t2 hb
    subst hbo
    simp [hf]

lemma stage_ct (t2 t3 : VS) (l l3 : List Step)
    (h : stepRun (·.needColortransformUpdate) build_colortransform
      .colortransform (t2, l, none) = (t3, l3, none)) :
    t3.needInterpolationUpdate = t2.needInterpolationUpdate ∧
    t3.needTextureUpload = t2.needTextureUpload ∧
    t3.needColortransformUpdate = false ∧
    t3.needVertexUpdate = t2.needVertexUpdate ∧
    t3.viewNeedMethodUpdate = t2.viewNeedMethodUpdate ∧
    t3.data = t2.data ∧
    t3.rebuildCount = (if t2.needColortransformUpdate
      then t2.rebuildCount + 1 else t2.rebuildCount) ∧
    l3 = l ++ (if t2.needColortransformUpdate then [Step.colortransform] else []) := by
  rcases stepRun_ok_char _ _ _ _ _ _ _ _ h with ⟨hf, rfl, rfl, _⟩ | ⟨hf, hb, rfl⟩
  · simp [hf]
  · obtain ⟨img, cn, _, _, hbo⟩ := build_colortransform_ok t2 t3 hb
    subst hbo
    simp [hf]

lemma stage_vertex (t3 t4 : VS) (l l4 : List Step)
    (h : stepRun (·.needVertexUpdate) build_vertex .vertex
      (t3, l, none) = (t4, l4, none)) :
    t4.needInterpolationUpdate = t3.needInterpolationUpdate ∧
    t4.needTextureUpload = t3.needTextureUpload ∧
    t4.needColortransformUpdate = t3.needColortransformUpdate ∧
    t4.needVertexUpdate = false ∧
    t4.viewNeedMethodUpdate = t3.viewNeedMethodUpdate ∧
    t4.data = t3.data ∧ t4.rebuildCount = t3.rebuildCount ∧
    l4 = l ++ (if t3.needVertexUpdate then [Step.vertex] else []) := by
  rcases stepRun_ok_char _ _ _ _ _ _ _ _ h with ⟨hf, rfl, rfl, _⟩ | ⟨hf, hb, rfl⟩
  · simp [hf]
  · unfold build_vertex at hb
    have hbo := ((Prod.mk.injEq _ _ _ _).mp hb).1
    rw [← hbo]
    simp [hf]

lemma stage_method (t4 t5 : VS) (l l5 : List Step)
    (h : stepRun (·.viewNeedMethodUpdate) update_method .methodSel
      (t4, l, none) = (t5, l5, none)) :
    t5.needInterpolationUpdate = t4.needInterpolationUpdate ∧
    t5.needTextureUpload = t4.needTextureUpload ∧
    t5.needColortransformUpdate = t4.needColortransformUpdate ∧
    t5.needVertexUpdate = t4.needVertexUpdate ∧
    t5.viewNeedMethodUpdate = false ∧
    t5.data = t4.data ∧ t5.rebuildCount = t4.rebuildCount ∧
    l5 = l ++ (if t4.viewNeedMethodUpdate then [Step.methodSel] else []) := by
  rcases stepRun_ok_char _ _ _ _ _ _ _ _ h with ⟨hf, rfl, rfl, _⟩ | ⟨hf, hb, rfl⟩
  · simp [hf]
  · obtain ⟨e1, e2, e3, e4, e5, e6, e7⟩ := update_method_ok_effect t4 t5 hb
    simp [hf, e1, e2, e3, e4, e5, e6, e7]

/-- The full characterization of a successful (no exception)
`_prepare_draw` pass, shared by the scheduler claims: with no data it
returns False having run nothing; with data it proceeds, executes
exactly the scheduled steps in order, leaves every flag clear, and
bumps the chain rebuild counter exactly when the colortransform step
ran. -/
lemma prepare_draw_spec (s s' : VS) (steps : List Step) (pr : Bool)
    (h : prepare_draw s = (s', steps, pr, none)) :
    (s.data = none → s' = s ∧ steps = [] ∧ pr = false) ∧
    (s.data ≠ none →
      pr = true ∧ steps = scheduledSteps s ∧
      s'.needInterpolationUpdate = false ∧ s'.needTextureUpload = false ∧
      s'.needColortransformUpdate = false ∧ s'.needVertexUpdate = false ∧
      s'.viewNeedMethodUpdate = false ∧
      s'.rebuildCount = (if Step.colortransform ∈ steps
        then s.rebuildCount + 1 else s.rebuildCount)) := by
  cases hd : s.data with
  | none =>
      unfold prepare_draw at h
      rw [hd] at h
      dsimp only at h
      simp only [Prod.mk.injEq] at h
      refine ⟨fun _ => ⟨h.1.symm, h.2.1.symm, h.2.2.1.symm⟩, fun hne => absurd rfl hne⟩
  | some img =>
      refine ⟨fun h0 => Option.noConfusion h0, fun _ => ?_⟩
      unfold prepare_draw at h
      rw [hd] at h
      dsimp only at h
      rcases hr1 : stepRun (·.needInterpolationUpdate) build_interpolation .interp
        (s, [], none) with ⟨t1, l1, e1⟩
      rw [hr1] at h
      rcases hr2 : stepRun (·.needTextureUpload) build_texture .textureUp
        (t1, l1, e1) with ⟨t2, l2, e2⟩
      rw [hr2] at h
      rcases hr3 : stepRun (·.needColortransformUpdate) build_colortransform
        .colortransform (t2, l2, e2) with ⟨t3, l3, e3⟩
      rw [hr3] at h
      rcases hr4 : stepRun (·.needVertexUpdate) build_vertex .vertex
        (t3, l3, e3) with ⟨t4, l4, e4⟩
      rw [hr4] at h
      rcases hr5 : stepRun (·.viewNeedMethodUpdate) update_method .methodSel
        (t4, l4, e4) with ⟨t5, l5, e5⟩
      rw [hr5] at h
      dsimp only at h
      simp only [Prod.mk.injEq] at h
      obtain ⟨ht5, hl5, hpr, he5⟩ := h
      have he4 : e4 = none := by
        cases e4 with
        | none => rfl
        | some e =>
            rw [show stepRun (·.viewNeedMethodUpdate) update_method .methodSel
              (t4, l4, some e) = (t4, l4, some e) from rfl] at hr5
            simp only [Prod.mk.injEq] at hr5
            rw [← he5, ← hr5.2.2]
      rw [he4] at hr4 hr5
      have he3 : e3 = none := by
        cases e3 with
        | none => rfl
        | some e =>
            rw [show stepRun (·.needVertexUpdate) build_vertex .vertex
              (t3, l3, some e) = (t3, l3, some e) from rfl] at hr4
            simp at hr4
      rw [he3] at hr3 hr4
      have he2 : e2 = none := by
        cases e2 with
        | none => rfl
        | some e =>
            rw [show stepRun (·.needColortransformUpdate) build_colortransform
              .colortransform (t2, l2, some e) = (t2, l2, some e) from rfl] at hr3
            simp at hr3
      rw [he2] at hr2 hr3
      have he1 : e1 = none := by
        cases e1 with
        | none => rfl
        | some e =>
            rw [show stepRun (·.needTextureUpload) build_texture .textureUp
              (t1, l1, some e) = (t1, l1, some e) from rfl] at hr2
            simp at hr2
      rw [he1] at hr1 hr2
      rw [he5] at hr5
      obtain ⟨a1, a2, a3, a4, a5, a6, a7, a8⟩ := stage_interp s t1 [] l1 hr1
      obtain ⟨b1, b2, b3, b4, b5, b6, b7, b8⟩ := stage_texture t1 t2 l1 l2 hr2
      obtain ⟨c1, c2, c3, c4, c5, c6, c7, c8⟩ := stage_ct t2 t3 l2 l3 hr3
      obtain ⟨d1, d2, d3, d4, d5, d6, d7, d8⟩ := stage_vertex t3 t4 l3 l4 hr4
      obtain ⟨f1, f2, f3, f4, f5, f6, f7, f8⟩ := stage_method t4 t5 l4 l5 hr5
      subst ht5 hl5
      have hsteps : l5 = scheduledSteps s := by
        rw [f8, d8, c8, b8, a8, b3, a2, a3, c4, b4, a4, d5, c5, b5, a5]
        unfold scheduledSteps
        rcases Bool.dichotomy s.needColortransformUpdate with h3 | h3 <;>
          rcases Bool.dichotomy s.needTextureUpload with h2 | h2 <;>
            simp [h2, h3, List.append_assoc]
      refine ⟨hpr.symm, hsteps, ?_, ?_, ?_, ?_, ?_, ?_⟩
      · rw [f1, d1, c1, b1, a1]
      · rw [f2, d2, c2, b2]
      · rw [f3, d3, c3]
      · rw [f4, d4]
      · exact f5
      · rw [hsteps]
        rw [f7, d7, c7, b7, a7, b3, a2, a3]
        unfold scheduledSteps
        rcases Bool.dichotomy s.needInterpolationUpdate with h | h <;>
          rcases Bool.dichotomy s.needTextureUpload with h2 | h2 <;>
            rcases Bool.dichotomy s.needColortransformUpdate with h3 | h3 <;>
              rcases Bool.dichotomy s.needVertexUpdate with h4 | h4 <;>
                rcases Bool.dichotomy s.viewNeedMethodUpdate with h5 | h5 <;>
                  simp [h, h2, h3, h4, h5]

/-- C4 (counterexample): in a state whose only set flag is
texture-upload, the colortransform step nevertheless runs in the same
draw, because `_build_texture` sets the colortransform flag it does not
own (image.py:699).  This refutes the claim that no step sets a flag it
does not own. -/
theorem c4_texture_step_sets_foreign_flag :
    ({ baseVS with needTextureUpload := true } : VS).needColortransformUpdate = false ∧
    prepare_draw { baseVS with needTextureUpload := true } =
      ({ baseVS with rebuildCount := 6 },
       [Step.textureUp, Step.colortransform], true, none) := by
  constructor
  · decide
  · norm_num [prepare_draw, stepRun, build_texture, build_colortransform,
      build_vertex, build_interpolation, update_method, prepare_transforms,
      tex_set_data, clim_normalized, climIndex, pySub, pyDivC,
      scale_data_on_cpu, corner, isSingleBand, build_color_transform,
      baseVS, baseTex, imgU8, normalize_value, is_normalized, matMin, matMax]

/-- C4 (amended): per draw the pending steps execute in the fixed
order interpolation, texture-upload, colortransform, vertex, method;
each runs exactly when scheduled (its own flag, except that a texture
upload also schedules the colortransform step by setting its flag) and
every flag is clear afterwards; with no raster assigned drawing is
skipped entirely, without error and with no step run. -/
theorem c4_prepare_draw_schedule :
    (∀ s : VS, s.data = none → prepare_draw s = (s, [], false, none)) ∧
    (∀ (s s2 : VS) (steps : List Step) (pr : Bool),
       prepare_draw s = (s2, steps, pr, none) → s.data ≠ none →
       pr = true ∧ steps = scheduledSteps s ∧
       s2.needInterpolationUpdate = false ∧ s2.needTextureUpload = false ∧
       s2.needColortransformUpdate = false ∧ s2.needVertexUpdate = false ∧
       s2.viewNeedMethodUpdate = false) := by
  constructor
  · intro s hd
    unfold prepare_draw
    rw [hd]
  · intro s s2 steps pr h hne
    have hs := (prepare_draw_spec s s2 steps pr h).2 hne
    exact ⟨hs.1, hs.2.1, hs.2.2.1, hs.2.2.2.1, hs.2.2.2.2.1,
           hs.2.2.2.2.2.1, hs.2.2.2.2.2.2.1⟩

/-- Witness for C4 at a no-data state and at the state with only the
texture-upload flag set. -/
theorem c4_prepare_draw_schedule_witness :
    prepare_draw { baseVS with data := none } =
      ({ baseVS with data := none }, [], false, none) ∧
    ([Step.textureUp, Step.colortransform] : List Step) =
      scheduledSteps { baseVS with needTextureUpload := true } := by
  have heval : prepare_draw { baseVS with needTextureUpload := true } =
      ({ baseVS with rebuildCount := 6 },
       [Step.textureUp, Step.colortransform], true, none) := by
    norm_num [prepare_draw, stepRun, build_texture, build_colortransform,
      build_vertex, build_interpolation, update_method, prepare_transforms,
      tex_set_data, clim_normalized, climIndex, pySub, pyDivC,
      scale_data_on_cpu, corner, isSingleBand, build_color_transform,
      baseVS, baseTex, imgU8, normalize_value, is_normalized, matMin, matMax]
  exact ⟨c4_prepare_draw_schedule.1 _ rfl,
    ((c4_prepare_draw_schedule.2 _ _ _ _ heval (by decide)).2.1).symm⟩

lemma mkTex_dtype (img : Img) (d : DType) (tag : String)
    (h : texture_dtype_format d = some tag) :
    mkTex (some img) (.dtypeReq d) =
      .ok ({ autoTextureFormat := false,
             clim := .noneV,
             dataDtype := some img.dtype,
             dataLimits := none,
             scaleTextureGpu := true,
             internalformat :=
               some (substituteChannels tag (data_num_channels (some img))) },
           (should_cast_to_f32 d).2) := by
  simp [mkTex, get_texture_format_for_data, handle_auto_texture_format,
        get_gl_tex_format, create_rep_array, data_num_channels, h]

lemma mkTex_dtype_unsupported (img : Img) (d : DType)
    (h : texture_dtype_format d = none) :
    mkTex (some img) (.dtypeReq d) =
      .error "ValueError: cannot determine internal texture format" := by
  simp [mkTex, get_texture_format_for_data, handle_auto_texture_format,
        get_gl_tex_format, create_rep_array, data_num_channels, h]

/-- C8: for every element type in the dtype-to-tag table, format
resolution produces the table tag with the channel placeholder
substituted to r / rgb / rgba for channel counts 1 / 3 / 4; for every
element type outside the table an explicit non-string request raises
the unsupported-format ValueError. -/
theorem c8_format_resolution (d : DType) (img : Img)
    (hch : data_num_channels (some img) = 1 ∨ data_num_channels (some img) = 3 ∨
           data_num_channels (some img) = 4) :
    (∀ tag, expected_internalformat d (data_num_channels (some img)) = some tag →
       ∃ tex ws, mkTex (some img) (.dtypeReq d) = .ok (tex, ws) ∧
         tex.internalformat = some tag) ∧
    (texture_dtype_format d = none →
       mkTex (some img) (.dtypeReq d) =
         .error "ValueError: cannot determine internal texture format") := by
  constructor
  · intro tag htag
    have key : ∀ tag0 : String, texture_dtype_format d = some tag0 →
        substituteChannels tag0 (data_num_channels (some img)) = tag →
        ∃ tex ws, mkTex (some img) (.dtypeReq d) = .ok (tex, ws) ∧
          tex.internalformat = some tag := by
      intro tag0 h0 hsub
      exact ⟨_, _, mkTex_dtype img d tag0 h0, by rw [hsub]⟩
    rcases hch with h | h | h <;> rw [h] at htag <;> cases d <;>
      simp [expected_internalformat] at htag <;> subst htag <;>
        exact key _ rfl (by rw [h]; rfl)
  · intro h
    exact mkTex_dtype_unsupported img d h

/-- Witness for C8 at uint8 with a 3-band raster and at the
unsupported float16 request. -/
theorem c8_format_resolution_witness :
    (∃ tex ws, mkTex (some { dtype := .u8, ndim3 := true, bands := 3, mat := [] })
        (.dtypeReq .u8) = .ok (tex, ws) ∧ tex.internalformat = some "rgb8") ∧
    mkTex (some imgMix) (.dtypeReq .f16) =
      .error "ValueError: cannot determine internal texture format" :=
  ⟨(c8_format_resolution .u8 { dtype := .u8, ndim3 := true, bands := 3, mat := [] }
      (by decide)).1 "rgb8" (by decide),
   (c8_format_resolution .f16 imgMix (by decide)).2 (by decide)⟩

lemma mem_ite_singleton {x y : Step} {c : Prop} [Decidable c] :
    x ∈ (if c then [y] else ([] : List Step)) ↔ c ∧ x = y := by
  split <;> simp_all

lemma visual_set_gamma_ok (s s1 : VS) (g : ℚ)
    (hct : s.needColortransformUpdate = false)
    (h : visual_set_gamma s g = (s1, none)) :
    ∃ ch, s.chain = some ch ∧
      s1 = { s with gamma := g, chain := some (chainSetGamma ch g) } := by
  unfold visual_set_gamma at h
  split at h
  · exact absurd ((Prod.mk.injEq _ _ _ _).mp h).2 (by simp)
  · try dsimp only at h
    rw [hct] at h
    try dsimp only at h
    cases hch : s.chain with
    | none =>
        rw [hch] at h
        try dsimp only at h
        exact absurd ((Prod.mk.injEq _ _ _ _).mp h).2 (by simp)
    | some ch =>
        rw [hch] at h
        try dsimp only at h
        rw [hct]
        exact ⟨ch, rfl, ((Prod.mk.injEq _ _ _ _).mp h).1.symm⟩

lemma visual_set_clim_tup_ok (s s1 : VS) (a b : ℚ)
    (hct : s.needColortransformUpdate = false)
    (h : visual_set_clim s (.tupA [a, b]) = (s1, none)) :
    ∃ ch cn nu, s.chain = some ch ∧
      clim_normalized { s.texture with clim := .pairV a b } = .ok cn ∧
      s1 = { s with
             texture := { s.texture with clim := .pairV a b },
             needTextureUpload := nu,
             chain := some (chainSetClim ch cn) } := by
  unfold visual_set_clim set_clim at h
  try dsimp only at h
  split at h <;>
    (rw [hct] at h
     try dsimp only at h
     cases hcn : clim_normalized { s.texture with clim := ClimSt.pairV a b } with
     | error e =>
         rw [hcn] at h
         try dsimp only at h
         exact absurd ((Prod.mk.injEq _ _ _ _).mp h).2 (by simp)
     | ok cn =>
         rw [hcn] at h
         try dsimp only at h
         cases hch : s.chain with
         | none =>
             rw [hch] at h
             try dsimp only at h
             exact absurd ((Prod.mk.injEq _ _ _ _).mp h).2 (by simp)
         | some ch =>
             rw [hch] at h
             try dsimp only at h
             rw [hct]
             exact ⟨ch, cn, _, rfl, rfl, ((Prod.mk.injEq _ _ _ _).mp h).1.symm⟩)

lemma visual_set_clim_auto_flag (s : VS) :
    (visual_set_clim s (.strA "auto")).1.needTextureUpload = true := by
  unfold visual_set_clim set_clim
  dsimp only
  rw [if_pos rfl]
  try dsimp only
  repeat' first | rfl | simp_all | split

/-- C5 (amended): a gamma change, or a numeric clim change that does
not force a texture re-upload, mutates the existing chain in place
(stage index 1 or 2) and no chain rebuild happens at the next draw;
but setting clim to auto always sets the texture-upload flag, any
draw entered with that flag set rebuilds the whole chain (the upload
step sets the colortransform flag), and setting the colormap sets the
colortransform flag directly. -/
theorem c5_chain_rebuild_policy :
    (∀ (s s1 : VS) (g : ℚ),
       s.needColortransformUpdate = false → s.needTextureUpload = false →
       visual_set_gamma s g = (s1, none) →
       s1.rebuildCount = s.rebuildCount ∧
       (∃ ch, s.chain = some ch ∧ s1.chain = some (chainSetGamma ch g)) ∧
       (∀ (s2 : VS) (steps : List Step) (pr : Bool),
          prepare_draw s1 = (s2, steps, pr, none) →
          Step.colortransform ∉ steps ∧ s2.rebuildCount = s.rebuildCount)) ∧
    (∀ (s s1 : VS) (a b : ℚ),
       s.needColortransformUpdate = false → s.needTextureUpload = false →
       visual_set_clim s (.tupA [a, b]) = (s1, none) →
       s1.needTextureUpload = false →
       s1.rebuildCount = s.rebuildCount ∧
       (∃ ch cn, s.chain = some ch ∧ clim_normalized s1.texture = .ok cn ∧
          s1.chain = some (chainSetClim ch cn)) ∧
       (∀ (s2 : VS) (steps : List Step) (pr : Bool),
          prepare_draw s1 = (s2, steps, pr, none) →
          Step.colortransform ∉ steps ∧ s2.rebuildCount = s.rebuildCount)) ∧
    (∀ s : VS, (visual_set_clim s (.strA "auto")).1.needTextureUpload = true) ∧
    (∀ (s s2 : VS) (steps : List Step) (pr : Bool),
       s.needTextureUpload = true → s.data ≠ none →
       prepare_draw s = (s2, steps, pr, none) →
       Step.colortransform ∈ steps ∧ s2.rebuildCount = s.rebuildCount + 1) ∧
    (∀ (s : VS) (c : String),
       (visual_set_cmap s c).needColortransformUpdate = true) := by
  refine ⟨?_, ?_, visual_set_clim_auto_flag, ?_, ?_⟩
  · intro s s1 g hct htex h
    obtain ⟨ch, hch, rfl⟩ := visual_set_gamma_ok s s1 g hct h
    refine ⟨rfl, ⟨ch, hch, rfl⟩, ?_⟩
    intro s2 steps pr hp
    cases hd : ({ s with gamma := g, chain := some (chainSetGamma ch g) } : VS).data with
    | none =>
        obtain ⟨rfl, rfl, _⟩ := (prepare_draw_spec _ _ _ _ hp).1 hd
        simp
    | some img =>
        have hs := (prepare_draw_spec _ _ _ _ hp).2 (by rw [hd]; simp)
        have hsched : steps = scheduledSteps
            { s with gamma := g, chain := some (chainSetGamma ch g) } := hs.2.1
        have hmem : Step.colortransform ∉ steps := by
          rw [hsched]
          simp [scheduledSteps, mem_ite_singleton, hct, htex]
        refine ⟨hmem, ?_⟩
        rw [hs.2.2.2.2.2.2.2]
        simp [hmem]
  · intro s s1 a b hct htex h htex1
    obtain ⟨ch, cn, nu, hch, hcn, rfl⟩ := visual_set_clim_tup_ok s s1 a b hct h
    have hnu : nu = false := htex1
    subst hnu
    refine ⟨rfl, ⟨ch, cn, hch, hcn, rfl⟩, ?_⟩
    intro s2 steps pr hp
    cases hd : ({ s with
        texture := { s.texture with clim := .pairV a b },
        needTextureUpload := false,
        chain := some (chainSetClim ch cn) } : VS).data with
    | none =>
        obtain ⟨rfl, rfl, _⟩ := (prepare_draw_spec _ _ _ _ hp).1 hd
        simp
    | some img =>
        have hs := (prepare_draw_spec _ _ _ _ hp).2 (by rw [hd]; simp)
        have hsched : steps = scheduledSteps { s with
            texture := { s.texture with clim := .pairV a b },
            needTextureUpload := false,
            chain := some (chainSetClim ch cn) } := hs.2.1
        have hmem : Step.colortransform ∉ steps := by
          rw [hsched]
          simp [scheduledSteps, mem_ite_singleton, hct]
        refine ⟨hmem, ?_⟩
        rw [hs.2.2.2.2.2.2.2]
        simp [hmem]
  · intro s s2 steps pr htex hdata hp
    have hs := (prepare_draw_spec _ _ _ _ hp).2 hdata
    have hmem : Step.colortransform ∈ steps := by
      rw [hs.2.1]
      simp [scheduledSteps, mem_ite_singleton, htex]
    refine ⟨hmem, ?_⟩
    rw [hs.2.2.2.2.2.2.2]
    simp [hmem]
  · intro s c
    rfl

/-- C5 (counterexample): on a GPU-scaled visual with all flags clear
and a built chain, setting clim to the string auto succeeds and the
next draw re-uploads the texture and rebuilds the whole chain (the
rebuild counter increments), refuting the claim that a clim-only
change — including setting clim to auto — never rebuilds the chain
topology. -/
theorem c5_clim_auto_forces_rebuild :
    gpuVS.rebuildCount = 5 ∧
    (visual_set_clim gpuVS (.strA "auto")).2 = none ∧
    prepare_draw (visual_set_clim gpuVS (.strA "auto")).1 =
      ({ gpuVS with
         rebuildCount := 6,
         chain := some [.bandReduceLum, .clampRescale (.q 2, .q 4),
                        .gammaStage 1, .colormapLookup "viridis"] },
       [Step.textureUp, Step.colortransform], true, none) := by
  refine ⟨by decide, by decide, ?_⟩
  norm_num [visual_set_clim, set_clim, prepare_draw, stepRun, build_texture,
    build_colortransform, build_vertex, build_interpolation, update_method,
    prepare_transforms, tex_set_data, clim_normalized, climIndex, pySub,
    pyDivC, scale_data_on_cpu, corner, isSingleBand, build_color_transform,
    gpuVS, baseVS, gpuTex, baseTex, imgF32, normalize_value, is_normalized,
    matMin, matMax, chainSetClim, chainSetGamma]

/-- Witness for C5: a gamma-only change on the post-draw sample state
keeps the rebuild counter unchanged. -/
theorem c5_chain_rebuild_policy_witness :
    ∃ s1, visual_set_gamma baseVS 2 = (s1, none) ∧
      s1.rebuildCount = baseVS.rebuildCount := by
  have h : visual_set_gamma baseVS 2 =
      ({ baseVS with
         gamma := 2,
         chain := some [.bandReduceLum, .clampRescale (.q 0, .q 1),
                        .gammaStage 2, .colormapLookup "viridis"] }, none) := by
    decide
  exact ⟨_, h, (c5_chain_rebuild_policy.1 baseVS _ 2 (by decide) (by decide) h).1⟩

/-- C7: with method auto the selected method is subdivide exactly for a
linear transform and impostor otherwise; an explicit name outside the
valid set raises the unknown-method ValueError (at draw preparation);
subdivide assigns the forward transform to the vertex stage and the
null transform to the fragment stage, impostor assigns the null
transform to the vertex stage and the inverse transform to the
fragment stage. -/
theorem c7_method_selection :
    (∀ s : VS, s.method = "auto" →
       (update_method s).2 = none ∧
       (update_method s).1.methodUsed =
         some (if s.linearTransform then "subdivide" else "impostor")) ∧
    (∀ s : VS, s.method ≠ "auto" → s.method ≠ "subdivide" → s.method ≠ "impostor" →
       (update_method s).2 = some "ValueError: unknown image draw method" ∧
       (update_method s).1.methodUsed = some s.method) ∧
    (∀ s : VS, (update_method s).1.methodUsed = some "subdivide" →
       (update_method s).1.vertTransform = some .forwardT ∧
       (update_method s).1.fragTransform = some .nullT) ∧
    (∀ s : VS, (update_method s).1.methodUsed = some "impostor" →
       (update_method s).1.vertTransform = some .nullT ∧
       (update_method s).1.fragTransform = some .inverseT) := by
  refine ⟨?_, ?_, ?_, ?_⟩
  · intro s ha
    cases hl : s.linearTransform <;>
      simp [update_method, prepare_transforms, ha, hl]
  · intro s h1 h2 h3
    constructor <;> simp [update_method, prepare_transforms, h1, h2, h3]
  · intro s h
    by_cases ha : s.method = "auto"
    · cases hl : s.linearTransform
      · simp [update_method, prepare_transforms, ha, hl] at h
      · simp [update_method, prepare_transforms, ha, hl]
    · by_cases h1 : s.method = "subdivide"
      · simp [update_method, prepare_transforms, ha, h1]
      · by_cases h2 : s.method = "impostor"
        · simp [update_method, prepare_transforms, ha, h1, h2] at h
        · simp [update_method, prepare_transforms, ha, h1, h2] at h
  · intro s h
    by_cases ha : s.method = "auto"
    · cases hl : s.linearTransform
      · simp [update_method, prepare_transforms, ha, hl]
      · simp [update_method, prepare_transforms, ha, hl] at h
    · by_cases h1 : s.method = "subdivide"
      · simp [update_method, prepare_transforms, ha, h1] at h
      · by_cases h2 : s.method = "impostor"
        · simp [update_method, prepare_transforms, ha, h1, h2]
        · simp [update_method, prepare_transforms, ha, h1, h2] at h

/-- Witness for C7 on the sample state (linear transform, method auto)
and variants. -/
theorem c7_method_selection_witness :
    ((update_method baseVS).2 = none ∧
     (update_method baseVS).1.methodUsed = some "subdivide") ∧
    (update_method { baseVS with linearTransform := false }).1.methodUsed =
      some "impostor" ∧
    (update_method { baseVS with method := "bogus" }).2 =
      some "ValueError: unknown image draw method" ∧
    ((update_method baseVS).1.vertTransform = some .forwardT ∧
     (update_method baseVS).1.fragTransform = some .nullT) ∧
    ((update_method { baseVS with linearTransform := false }).1.vertTransform =
       some .nullT ∧
     (update_method { baseVS with linearTransform := false }).1.fragTransform =
       some .inverseT) := by
  refine ⟨⟨(c7_method_selection.1 baseVS rfl).1, ?_⟩, ?_, ?_, ?_, ?_⟩
  · have := (c7_method_selection.1 baseVS rfl).2
    simpa using this
  · have := (c7_method_selection.1 { baseVS with linearTransform := false } rfl).2
    simpa using this
  · exact (c7_method_selection.2.1 { baseVS with method := "bogus" }
      (by decide) (by decide) (by decide)).1
  · exact c7_method_selection.2.2.1 baseVS (by decide)
  · exact c7_method_selection.2.2.2 { baseVS with linearTransform := false }
      (by decide)

/-- C9 (counterexample): the method setter performs no validation —
an unknown method name is accepted without error and stored, changing
the visible method, refuting the claim that setting an unknown method
raises and leaves state unchanged. -/
theorem c9_method_setter_accepts_unknown :
    baseVS.method = "auto" ∧
    visual_set_method baseVS "bogus" =
      ({ baseVS with method := "bogus", needVertexUpdate := true }, none) := by
  exact ⟨by decide, by decide⟩

/-- C9 (amended): the clim, gamma, and interpolation setters validate
before mutating, so a rejected call raises the corresponding
ValueError (the interpolation message enumerating the valid set) and
leaves the whole state unchanged; the method setter accepts any value
without raising, storing it, and the unknown-method failure only
happens later in draw preparation, with a message that does not
enumerate the valid set. -/
theorem c9_mutator_atomicity :
    (∀ (s : VS) (str2 : String), str2 ≠ "auto" →
       visual_set_clim s (.strA str2) =
         (s, some "ValueError: clim must be auto if a string")) ∧
    (∀ (s : VS) (xs : List ℚ), xs.length ≠ 2 →
       visual_set_clim s (.tupA xs) =
         (s, some "ValueError: clim must have two elements")) ∧
    (∀ (s : VS) (g : ℚ), g ≤ 0 →
       visual_set_gamma s g =
         (s, some "ValueError: gamma must be greater than zero")) ∧
    (∀ (s : VS) (i : String), interpolationNames.contains i = false →
       visual_set_interpolation s i =
         (s, some ("ValueError: interpolation must be one of " ++
                   String.intercalate ", " interpolationNames))) ∧
    (∀ (s : VS) (m : String),
       (visual_set_method s m).2 = none ∧ (visual_set_method s m).1.method = m) ∧
    (∀ s : VS, s.method ≠ "auto" → s.method ≠ "subdivide" →
       s.method ≠ "impostor" → (update_method s).2.isSome = true) := by
  refine ⟨?_, ?_, ?_, ?_, ?_, ?_⟩
  · intro s str2 hne
    simp [visual_set_clim, set_clim, hne]
  · intro s xs hlen
    rcases xs with _ | ⟨a, _ | ⟨b, _ | ⟨c, rest⟩⟩⟩
    · simp [visual_set_clim, set_clim]
    · simp [visual_set_clim, set_clim]
    · exact absurd rfl hlen
    · simp [visual_set_clim, set_clim]
  · intro s g hg
    unfold visual_set_gamma
    rw [if_pos hg]
  · intro s i hi
    unfold visual_set_interpolation
    rw [hi]
    split
    · rfl
    · simp_all
  · intro s m
    unfold visual_set_method
    split <;> simp_all
  · intro s h1 h2 h3
    simp [update_method, h1, h2, h3]

/-- Witness for C9 at concrete rejected calls and an accepted method
change. -/
theorem c9_mutator_atomicity_witness :
    visual_set_clim baseVS (.strA "bogus") =
      (baseVS, some "ValueError: clim must be auto if a string") ∧
    visual_set_clim baseVS (.tupA [1, 2, 3]) =
      (baseVS, some "ValueError: clim must have two elements") ∧
    visual_set_gamma baseVS 0 =
      (baseVS, some "ValueError: gamma must be greater than zero") ∧
    visual_set_interpolation baseVS "bogus" =
      (baseVS, some ("ValueError: interpolation must be one of " ++
                     String.intercalate ", " interpolationNames)) ∧
    (visual_set_method baseVS "impostor").2 = none ∧
    (update_method { baseVS with method := "bogus" }).2.isSome = true :=
  ⟨c9_mutator_atomicity.1 baseVS "bogus" (by decide),
   c9_mutator_atomicity.2.1 baseVS [1, 2, 3] (by decide),
   c9_mutator_atomicity.2.2.1 baseVS 0 le_rfl,
   c9_mutator_atomicity.2.2.2.1 baseVS "bogus" (by decide),
   (c9_mutator_atomicity.2.2.2.2.1 baseVS "impostor").1,
   c9_mutator_atomicity.2.2.2.2.2 { baseVS with method := "bogus" }
     (by decide) (by decide) (by decide)⟩

end VispyImage
